import Mathlib

/-!
Verification of the `hepstats.hypotests.parameters` module: a shallow
embedding of the `POIarray` and `POI` classes and the `asarray` helper,
together with theorems about their construction, equality, hashing,
indexing and append semantics.

Modelling choices, all taken from the source:
* a numpy float64 is modelled by `F64`: a finite rational value, the
  negative zero (bit pattern distinct from `+0.0` but numerically equal
  to it), or a NaN (IEEE `==` false against everything, itself included);
  structural equality of `F64` corresponds to bit-pattern equality, and
  integer-to-float coercion is modelled exactly;
* a Python runtime object of the class hierarchy is a `PObj`, tagged
  `arr` (a plain `POIarray`) or `poi` (a `POI`); the tag models
  `isinstance(_, POI)`, and every `PObj` is a `POIarray` instance;
* fallible constructors and accessors return `Except Err PObj`;
* Python's `==` rich-comparison protocol, including the `NotImplemented`
  fallback from `POI.__eq__` to `POIarray.__eq__`, is modelled by `pyEq`;
* `hash` is modelled by its input tuple: Python's `hash` is a fixed
  deterministic function of that tuple, so equal tuples are exactly the
  inputs for which the code guarantees equal hash values.
-/

/-- Model of an IEEE-754 double as stored in the numpy float64 array: a
finite numeric value, the negative zero, or a NaN. Structural equality of
`F64` corresponds to bit-pattern equality of the stored doubles. -/
inductive F64 where
  | fin (q : ℚ)
  | negZero
  | nan
deriving DecidableEq

/-- Numeric IEEE `==` comparison of two doubles, as numpy applies it
elementwise: `-0.0 == 0.0` holds and `nan == nan` fails. -/
def f64Eq : F64 → F64 → Bool
  | .fin a, .fin b => a == b
  | .fin a, .negZero => a == 0
  | .negZero, .fin b => b == 0
  | .negZero, .negZero => true
  | .nan, _ => false
  | _, .nan => false

/-- Check that a double is not a NaN. -/
def notNaN : F64 → Bool
  | .nan => false
  | _ => true

/-- Check that a double is not the negative zero. -/
def notNegZero : F64 → Bool
  | .negZero => false
  | _ => true

/-- Python number passed by the caller: an `int` or a `float`; the
constructor tag records the Python type of the argument. -/
inductive PyNum where
  | int (n : ℤ)
  | float (f : F64)
deriving DecidableEq

/-- Coercion `np.float64(v)` performed by `np.array(values, dtype=np.float64)`. -/
def toF64 : PyNum → F64
  | .int n => .fin (n : ℚ)
  | .float f => f

/-- Python `==` between two numbers, as used by `POI.__eq__` on the stored
scalars: numeric comparison after viewing both operands as numbers. -/
def pyNumEq (a b : PyNum) : Bool := f64Eq (toF64 a) (toF64 b)

/-- Modelled from the spec: the external fit parameter handle. The predicate
`hepstats.utils.fit.api_check.is_valid_parameter` is outside the shown
sources, so the parameter is an opaque handle carrying its `name` and the
verdict of the external validity predicate. -/
structure Param where
  name : String
  valid : Bool
deriving DecidableEq

/-- Modelled from the spec: the external validity predicate consulted by the
constructors. -/
def is_valid_parameter (p : Param) : Bool := p.valid

/-- Constructor argument `values`: a single non-iterable number or an
iterable (list) of numbers. -/
inductive PyVal where
  | num (n : PyNum)
  | list (l : List PyNum)
deriving DecidableEq

/-- Exceptions raised by the constructors and accessors: `ValueError` for an
invalid parameter, `TypeError` for the iterability constraints, and
`IndexError` for out-of-range access. -/
inductive Err where
  | invalidParameter
  | typeError
  | indexError
deriving DecidableEq

/-- Runtime object of the class hierarchy: a plain `POIarray` instance
(parameter and coerced float64 value array) or a `POI` instance (parameter
and the original scalar constructor argument, its inherited value array
being the single-element coercion). The tag models `isinstance(_, POI)`. -/
inductive PObj where
  | arr (param : Param) (values : List F64)
  | poi (param : Param) (value : PyNum)
deriving DecidableEq

/-- Attribute `self.parameter`, stored at construction. -/
def PObj.parameter : PObj → Param
  | .arr p _ => p
  | .poi p _ => p

/-- Attribute `self.name`, cached from `parameter.name` at construction. -/
def PObj.name : PObj → String
  | .arr p _ => p.name
  | .poi p _ => p.name

/-- Property `values`: the stored float64 array. For a `POI` it is the
single-element array built by `super().__init__(values=[value])`. -/
def PObj.values : PObj → List F64
  | .arr _ vs => vs
  | .poi _ v => [toF64 v]

/-- Method `__len__`: the length of the stored value array. -/
def PObj.len (a : PObj) : ℕ := a.values.length

/-- Property `ndim`: the stored `_ndim`, always 1. -/
def PObj.ndim (_ : PObj) : ℕ := 1

/-- Property `shape`: the stored `_shape`, the tuple `(len(values),)`. -/
def PObj.shape (a : PObj) : List ℕ := [a.len]

/-- Test `isinstance(x, POI)`. -/
def PObj.isPOI : PObj → Bool
  | .poi _ _ => true
  | .arr _ _ => false

/-- Property `value` of `POI`: the original scalar constructor argument,
stored in `_value` with its Python type intact; absent on a plain
`POIarray`. -/
def PObj.value? : PObj → Option PyNum
  | .poi _ v => some v
  | .arr _ _ => none

/-- Constructor `POIarray.__init__`: checks `is_valid_parameter` first
(raising `ValueError`), then that `values` is iterable (raising
`TypeError`), then stores the values coerced to float64. -/
def POIarrayInit (p : Param) (v : PyVal) : Except Err PObj :=
  if ¬ is_valid_parameter p then .error .invalidParameter
  else match v with
    | .num _ => .error .typeError
    | .list l => .ok (.arr p (l.map toF64))

/-- Constructor `POI.__init__`: checks that `value` is not iterable (raising
`TypeError`) before delegating to `POIarray.__init__` with `values=[value]`,
then stores the original scalar in `_value`. -/
def POIinit (p : Param) (v : PyVal) : Except Err PObj :=
  match v with
  | .list _ => .error .typeError
  | .num n =>
    match POIarrayInit p (.list [n]) with
    | .error e => .error e
    | .ok _ => .ok (.poi p n)

/-- Method `POIarray.__eq__`, with `none` modelling `NotImplemented`. Every
`PObj` is a `POIarray` instance, so the isinstance guard always passes; the
rule answers false on a length mismatch and otherwise compares the value
arrays elementwise with IEEE `==` and the cached names. -/
def arrayEqMeth (self other : PObj) : Option Bool :=
  if self.len ≠ other.len then some false
  else some ((List.zipWith f64Eq self.values other.values).all id
              && (self.name == other.name))

/-- Method `POI.__eq__`: `NotImplemented` (`none`) unless `other` is a
`POI`; otherwise compares the stored scalar `_value` with Python `==` and
the cached names. -/
def poiEqMeth (self other : PObj) : Option Bool :=
  match self, other with
  | .poi p v, .poi q w => some (pyNumEq v w && (p.name == q.name))
  | _, _ => none

/-- Dispatch of `type(a).__eq__`: `POI` overrides the method, every other
instance uses the `POIarray` base method. -/
def dunderEq (a b : PObj) : Option Bool :=
  if a.isPOI then poiEqMeth a b else arrayEqMeth a b

/-- Python's `==` rich-comparison protocol on these objects: when the right
operand's type is a proper subclass of the left's and overrides `__eq__`
(left a plain `POIarray`, right a `POI`), the reflected method runs first; a
`NotImplemented` answer passes control to the other operand; if both sides
answer `NotImplemented`, `==` falls back to object identity, modelled here
as structural equality (the branch is unreachable for these classes). -/
def pyEq (a b : PObj) : Bool :=
  if b.isPOI && !a.isPOI then
    match dunderEq b a with
    | some r => r
    | none =>
      match dunderEq a b with
      | some r => r
      | none => a == b
  else
    match dunderEq a b with
    | some r => r
    | none =>
      match dunderEq b a with
      | some r => r
      | none => a == b

/-- Hash input of `POIarray.__hash__`: the tuple
`(self.name, self.values.tostring())`. `tostring` yields the raw byte
layout of the float64 array, identified with the bit-pattern list itself. -/
def poiarrayHashKey (a : PObj) : String × List F64 := (a.name, a.values)

/-- Hash input of `POI.__hash__`: the tuple `(self.name, self.value)` over
the original scalar, a formula distinct from the array hash. -/
def poiHashKey : PObj → Option (String × PyNum)
  | .poi p v => some (p.name, v)
  | .arr _ _ => none

/-- Decidable equality on `Except` results, for evaluating the embedding on
concrete inputs. -/
instance {ε α : Type} [DecidableEq ε] [DecidableEq α] : DecidableEq (Except ε α) := fun a b =>
  match a, b with
  | .error e, .error f =>
    if h : e = f then isTrue (congrArg Except.error h)
    else isFalse (fun hef => h (Except.error.inj hef))
  | .error _, .ok _ => isFalse (fun hef => Except.noConfusion hef)
  | .ok _, .error _ => isFalse (fun hef => Except.noConfusion hef)
  | .ok a, .ok b =>
    if h : a = b then isTrue (congrArg Except.ok h)
    else isFalse (fun hef => h (Except.ok.inj hef))

/-- Normalisation of a numpy index: a negative index counts from the end. -/
def normIdx (i : ℤ) (n : ℕ) : ℤ := if i < 0 then i + n else i

/-- Method `__getitem__`: numpy indexing of the value array (negative
indices count from the end, anything out of range raises `IndexError`),
wrapping the selected float64 scalar in a new `POI` built through
`POI.__init__`. -/
def getitem (a : PObj) (i : ℤ) : Except Err PObj :=
  if h : 0 ≤ normIdx i a.values.length ∧ normIdx i a.values.length < (a.values.length : ℤ) then
    POIinit a.parameter (.num (.float (a.values.get ⟨(normIdx i a.values.length).toNat, by omega⟩)))
  else .error .indexError

/-- Method `append`: a non-iterable argument is wrapped in a one-element
list, `np.concatenate` places the new entries (coerced to float64) behind
the stored values, and a fresh `POIarray` is built through the public
constructor, which re-checks the parameter. The receiver is not touched. -/
def append (a : PObj) (v : PyVal) : Except Err PObj :=
  let extra := match v with
    | .num n => [n]
    | .list l => l
  POIarrayInit a.parameter (.list (a.values.map PyNum.float ++ extra))

/-- Wrapping and float64 coercion applied to an `append` argument. -/
def appendCoerce : PyVal → List F64
  | .num n => [toF64 n]
  | .list l => l.map toF64

/-- Function `asarray`: `POIarray(parameter=POI.parameter, values=POI.values)`,
a pure conversion that never touches its input. -/
def asarray (a : PObj) : Except Err PObj :=
  POIarrayInit a.parameter (.list (a.values.map PyNum.float))

/-! Helper lemmas about the float64 comparison. -/

/-- IEEE `==` of a double with itself holds exactly when it is not a NaN. -/
lemma f64Eq_self (x : F64) : f64Eq x x = notNaN x := by
  cases x <;> simp [f64Eq, notNaN]

/-- IEEE `==` is symmetric. -/
lemma f64Eq_symm (x y : F64) : f64Eq x y = f64Eq y x := by
  cases x <;> cases y <;> simp [f64Eq, eq_comm]

/-- Elementwise self-comparison of a value array succeeds exactly when the
array is NaN-free. -/
lemma zipWith_f64Eq_self (vs : List F64) :
    (List.zipWith f64Eq vs vs).all id = vs.all notNaN := by
  induction vs with
  | nil => rfl
  | cons x xs ih => simp only [List.zipWith_cons_cons, List.all_cons, id_eq, f64Eq_self, ih]

/-- Elementwise comparison of two value arrays is symmetric. -/
lemma zipWith_f64Eq_symm (xs : List F64) : ∀ ys : List F64,
    (List.zipWith f64Eq xs ys).all id = (List.zipWith f64Eq ys xs).all id := by
  induction xs with
  | nil => intro ys; cases ys <;> rfl
  | cons x xs ih =>
    intro ys
    cases ys with
    | nil => rfl
    | cons y ys =>
      simp only [List.zipWith_cons_cons, List.all_cons, id_eq, f64Eq_symm x y, ih ys]

/-- Two doubles that compare IEEE-equal have the same bit pattern, provided
neither is a negative zero. -/
lemma f64Eq_eq_of_notNegZero (x y : F64) (h : f64Eq x y = true)
    (hx : notNegZero x = true) (hy : notNegZero y = true) : x = y := by
  cases x <;> cases y <;> simp_all [f64Eq, notNegZero]

/-- Two value arrays of equal length that compare IEEE-equal elementwise are
bitwise identical, provided neither contains a negative zero. -/
lemma zipWith_f64Eq_lists_eq (xs : List F64) : ∀ ys : List F64,
    xs.length = ys.length → (List.zipWith f64Eq xs ys).all id = true →
    xs.all notNegZero = true → ys.all notNegZero = true → xs = ys := by
  induction xs with
  | nil => intro ys hlen _ _ _; exact (List.length_eq_zero.mp hlen.symm).symm
  | cons x xs ih =>
    intro ys hlen hzip hxs hys
    cases ys with
    | nil => simp at hlen
    | cons y ys =>
      simp only [List.zipWith, List.all_cons, Bool.and_eq_true, id] at hzip hxs hys
      have hxy := f64Eq_eq_of_notNegZero x y hzip.1 hxs.1 hys.1
      have hrest := ih ys (by simpa using hlen) hzip.2 hxs.2 hys.2
      rw [hxy, hrest]

/-- Coercing a value that is already a float64 is the identity. -/
lemma toF64_float (f : F64) : toF64 (.float f) = f := rfl

/-- Re-coercing an already coerced float64 array is the identity (the
`np.concatenate` / constructor round-trip in `append` and `asarray`). -/
lemma map_toF64_float (vs : List F64) : (vs.map PyNum.float).map toF64 = vs := by
  induction vs with
  | nil => rfl
  | cons x xs ih => simp [List.map_cons, toF64, ih]

/-- Composed form of the float64 round-trip identity. -/
lemma map_toF64_comp_float (vs : List F64) : vs.map (toF64 ∘ PyNum.float) = vs := by
  simpa [List.map_map] using map_toF64_float vs

/-- Characterisation of Python `==` between two plain `POIarray` instances:
the dispatch lands in `POIarray.__eq__`, which demands equal lengths, then
elementwise IEEE-equal values and equal names. -/
lemma pyEq_arr_arr (p q : Param) (vs ws : List F64) :
    pyEq (.arr p vs) (.arr q ws) =
      (decide (vs.length = ws.length) &&
        ((List.zipWith f64Eq vs ws).all id && (p.name == q.name))) := by
  by_cases hlen : vs.length = ws.length <;>
    simp [pyEq, dunderEq, arrayEqMeth, PObj.isPOI, PObj.len, PObj.values, PObj.name, hlen]

/-! Claim C1. -/

/-- C1, counterexample: with a valid parameter named `"p"` and scalar `5`,
the constructed `POI` and the length-1 `POIarray` compare EQUAL under
Python's `==` in both directions, contradicting the claim that the
comparison yields unequal: `POI.__eq__` answers `NotImplemented`, and `==`
falls back to `POIarray.__eq__`, which accepts the `POI` as a `POIarray`
instance and compares names and values elementwise. -/
theorem c1_poi_eq_poiarray_counterexample :
    POIinit ⟨"p", true⟩ (.num (.int 5)) = .ok (.poi ⟨"p", true⟩ (.int 5)) ∧
    POIarrayInit ⟨"p", true⟩ (.list [.int 5]) = .ok (.arr ⟨"p", true⟩ [.fin 5]) ∧
    pyEq (.poi ⟨"p", true⟩ (.int 5)) (.arr ⟨"p", true⟩ [.fin 5]) = true ∧
    pyEq (.arr ⟨"p", true⟩ [.fin 5]) (.poi ⟨"p", true⟩ (.int 5)) = true := by
  decide

/-- C1, amended: for every valid parameter `p` and non-NaN scalar `v`, the
method `POI.__eq__` itself rejects the length-1 `POIarray` (it answers
`NotImplemented`, equating a `POI` only with another `POI` of equal name and
scalar value), but the full `==` protocol falls back to `POIarray.__eq__`,
so `POI(p, v) == POIarray(p, [v])` evaluates to True in both directions. -/
theorem c1_poi_eq_poiarray_fallback (p : Param) (v : PyNum)
    (hp : is_valid_parameter p = true) (hv : notNaN (toF64 v) = true) :
    POIinit p (.num v) = .ok (.poi p v) ∧
    POIarrayInit p (.list [v]) = .ok (.arr p [toF64 v]) ∧
    poiEqMeth (.poi p v) (.arr p [toF64 v]) = none ∧
    pyEq (.poi p v) (.arr p [toF64 v]) = true ∧
    pyEq (.arr p [toF64 v]) (.poi p v) = true := by
  refine ⟨?_, ?_, rfl, ?_, ?_⟩ <;>
    simp [POIinit, POIarrayInit, hp, pyEq, dunderEq, arrayEqMeth, poiEqMeth,
      PObj.isPOI, PObj.len, PObj.values, PObj.name, f64Eq_self, hv]

/-- C1, witness for the amended theorem at parameter `"q"` and scalar `3`. -/
theorem c1_witness :
    POIinit ⟨"q", true⟩ (.num (.int 3)) = .ok (.poi ⟨"q", true⟩ (.int 3)) ∧
    POIarrayInit ⟨"q", true⟩ (.list [.int 3]) = .ok (.arr ⟨"q", true⟩ [.fin 3]) ∧
    poiEqMeth (.poi ⟨"q", true⟩ (.int 3)) (.arr ⟨"q", true⟩ [.fin 3]) = none ∧
    pyEq (.poi ⟨"q", true⟩ (.int 3)) (.arr ⟨"q", true⟩ [.fin 3]) = true ∧
    pyEq (.arr ⟨"q", true⟩ [.fin 3]) (.poi ⟨"q", true⟩ (.int 3)) = true :=
  c1_poi_eq_poiarray_fallback ⟨"q", true⟩ (.int 3) (by decide) (by decide)

/-! Claim C2. -/

/-- C2, counterexample: the arrays `POIarray(p, [0.0])` and
`POIarray(p, [-0.0])` are equal under `POIarray.__eq__` (IEEE `==` holds on
`0.0` and `-0.0`), yet their hash inputs `(name, values.tostring())` differ,
because `tostring` exposes the distinct bit patterns of the two zeros; the
code therefore does not guarantee identical hash values for these equal
arrays. -/
theorem c2_hash_counterexample :
    pyEq (.arr ⟨"p", true⟩ [.fin 0]) (.arr ⟨"p", true⟩ [.negZero]) = true ∧
    poiarrayHashKey (.arr ⟨"p", true⟩ [.fin 0]) ≠
      poiarrayHashKey (.arr ⟨"p", true⟩ [.negZero]) := by
  decide

/-- C2, amended: two `POIarray` instances that are equal under
`POIarray.__eq__` have identical hash inputs `(name, values.tostring())` —
and hence identical hash values — provided neither value array contains a
negative zero (equal then forces bitwise-identical arrays). -/
theorem c2_eq_implies_hashKey_eq (p q : Param) (vs ws : List F64)
    (h : pyEq (.arr p vs) (.arr q ws) = true)
    (hvs : vs.all notNegZero = true) (hws : ws.all notNegZero = true) :
    poiarrayHashKey (.arr p vs) = poiarrayHashKey (.arr q ws) := by
  rw [pyEq_arr_arr] at h
  simp only [Bool.and_eq_true, decide_eq_true_eq, beq_iff_eq] at h
  obtain ⟨hlen, hzip, hname⟩ := h
  have hlists := zipWith_f64Eq_lists_eq vs ws hlen hzip hvs hws
  simp [poiarrayHashKey, PObj.name, PObj.values, hlists, hname]

/-- C2, witness for the amended theorem on two equal arrays named `"h"`. -/
theorem c2_witness :
    poiarrayHashKey (.arr ⟨"h", true⟩ [.fin 2, .fin 3]) =
      poiarrayHashKey (.arr ⟨"h", true⟩ [.fin 2, .fin 3]) :=
  c2_eq_implies_hashKey_eq ⟨"h", true⟩ ⟨"h", true⟩ [.fin 2, .fin 3] [.fin 2, .fin 3]
    (by decide) (by decide) (by decide)

/-! Claim C3. -/

/-- C3, counterexample: a `POIarray` holding a NaN does not equal itself
(numpy elementwise `==` is false on `nan == nan`), so `POIarray` equality is
not reflexive as claimed. -/
theorem c3_reflexive_counterexample :
    pyEq (.arr ⟨"p", true⟩ [.nan]) (.arr ⟨"p", true⟩ [.nan]) = false := by
  decide

/-- C3, amended: `POIarray` equality is reflexive on every array whose
values contain no NaN, symmetric between any two `POIarray` instances, and
order-sensitive: for any parameter `p`, `POIarray(p, [1, 2])` does not equal
`POIarray(p, [2, 1])`. -/
theorem c3_eq_properties :
    (∀ (p : Param) (vs : List F64), vs.all notNaN = true →
      pyEq (.arr p vs) (.arr p vs) = true) ∧
    (∀ (p q : Param) (vs ws : List F64),
      pyEq (.arr p vs) (.arr q ws) = pyEq (.arr q ws) (.arr p vs)) ∧
    (∀ p : Param,
      pyEq (.arr p [.fin 1, .fin 2]) (.arr p [.fin 2, .fin 1]) = false) := by
  refine ⟨?_, ?_, ?_⟩
  · intro p vs hvs
    rw [pyEq_arr_arr, zipWith_f64Eq_self, hvs]
    simp
  · intro p q vs ws
    rw [pyEq_arr_arr, pyEq_arr_arr, Bool.eq_iff_iff]
    simp only [Bool.and_eq_true, decide_eq_true_eq, beq_iff_eq,
      zipWith_f64Eq_symm vs ws]
    exact ⟨fun ⟨h1, h2, h3⟩ => ⟨h1.symm, h2, h3.symm⟩,
      fun ⟨h1, h2, h3⟩ => ⟨h1.symm, h2, h3.symm⟩⟩
  · intro p
    rw [pyEq_arr_arr]
    norm_num [f64Eq]

/-- C3, witness: reflexivity of the amended theorem applied to a NaN-free
array named `"w"`. -/
theorem c3_witness :
    pyEq (.arr ⟨"w", true⟩ [.fin 4, .fin 5]) (.arr ⟨"w", true⟩ [.fin 4, .fin 5]) = true :=
  c3_eq_properties.1 ⟨"w", true⟩ [.fin 4, .fin 5] (by decide)

/-! Claim C4. -/

/-- C4, counterexample: constructing a `POI` from an invalid parameter and
an ITERABLE value raises the type-constraint error, not the
invalid-parameter error: `POI.__init__` checks iterability of the value
before delegating to the parent constructor that performs the parameter
validity check, so the error kind is not independent of the values
argument. -/
theorem c4_invalid_parameter_counterexample :
    POIinit ⟨"p", false⟩ (.list [.int 1, .int 2]) = .error .typeError ∧
    POIinit ⟨"p", false⟩ (.list [.int 1, .int 2]) ≠ .error .invalidParameter := by
  decide

/-- C4, amended: `POIarray` construction with an invalid parameter fails
with the invalid-parameter error for every values argument (the validity
check runs first); `POI` construction with an invalid parameter fails with
the invalid-parameter error for every non-iterable value, but an iterable
value triggers the type-constraint error first, for any parameter. -/
theorem c4_invalid_parameter_errors :
    (∀ (p : Param) (v : PyVal), is_valid_parameter p = false →
      POIarrayInit p v = .error .invalidParameter) ∧
    (∀ (p : Param) (n : PyNum), is_valid_parameter p = false →
      POIinit p (.num n) = .error .invalidParameter) ∧
    (∀ (p : Param) (l : List PyNum), POIinit p (.list l) = .error .typeError) := by
  refine ⟨?_, ?_, fun p l => rfl⟩
  · intro p v hp
    cases v <;> simp [POIarrayInit, hp]
  · intro p n hp
    simp [POIinit, POIarrayInit, hp]

/-- C4, witness: the amended theorem applied to an invalid parameter named
`"x"` with a scalar values argument and with a list values argument. -/
theorem c4_witness :
    POIarrayInit ⟨"x", false⟩ (.num (.int 9)) = .error .invalidParameter ∧
    POIinit ⟨"x", false⟩ (.num (.int 9)) = .error .invalidParameter ∧
    POIinit ⟨"x", false⟩ (.list [.int 9]) = .error .typeError :=
  ⟨c4_invalid_parameter_errors.1 ⟨"x", false⟩ (.num (.int 9)) (by decide),
   c4_invalid_parameter_errors.2.1 ⟨"x", false⟩ (.int 9) (by decide),
   c4_invalid_parameter_errors.2.2 ⟨"x", false⟩ [.int 9]⟩

/-! Indexing lemmas shared by claim C6. -/

/-- Indexed access at a natural in-range index on a valid-parameter array
returns a `POI` wrapping the parameter and the selected float64. -/
lemma getitem_nat (p : Param) (vs : List F64) (i : ℕ)
    (hp : is_valid_parameter p = true) (hi : i < vs.length) :
    getitem (.arr p vs) (i : ℤ) = .ok (.poi p (.float (vs.get ⟨i, hi⟩))) := by
  have hval : PObj.values (.arr p vs) = vs := rfl
  have hn : normIdx (i : ℤ) vs.length = (i : ℤ) := by
    unfold normIdx
    exact if_neg (by omega)
  unfold getitem
  simp only [hval, hn]
  rw [dif_pos ⟨by omega, by omega⟩]
  have ht : ((i : ℤ)).toNat = i := by omega
  simp only [ht]
  simp [POIinit, POIarrayInit, hp, PObj.parameter, PObj.values]

/-- Indexed access out of range (at or beyond the length, or below the
negative-index range) raises `IndexError`. -/
lemma getitem_oob (a : PObj) (j : ℤ)
    (hj : (a.values.length : ℤ) ≤ j ∨ j < -(a.values.length : ℤ)) :
    getitem a j = .error .indexError := by
  unfold getitem
  rw [dif_neg]
  unfold normIdx
  split <;> omega

/-! Claim C5. -/

/-- C5: `append` on a `POIarray` builds a new `POIarray` whose values are
the receiver's values followed by the appended values in the given order,
and the receiver keeps its values, length, name and parameter (the
embedding is purely functional because `np.concatenate` allocates a fresh
array, so the receiver is never written to); in particular
`POIarray(p, [1,2,3]).append(4)` equals `POIarray(p, [1,2,3,4])`. -/
theorem c5_append_pure (p : Param) (vs : List F64) (w : PyVal)
    (hp : is_valid_parameter p = true) :
    append (.arr p vs) w = .ok (.arr p (vs ++ appendCoerce w)) ∧
    (PObj.arr p vs).values = vs ∧
    (PObj.arr p vs).len = vs.length ∧
    (PObj.arr p vs).name = p.name ∧
    (PObj.arr p vs).parameter = p ∧
    append (.arr p [.fin 1, .fin 2, .fin 3]) (.num (.int 4)) =
      .ok (.arr p [.fin 1, .fin 2, .fin 3, .fin 4]) ∧
    POIarrayInit p (.list [.int 1, .int 2, .int 3, .int 4]) =
      .ok (.arr p [.fin 1, .fin 2, .fin 3, .fin 4]) ∧
    pyEq (.arr p [.fin 1, .fin 2, .fin 3, .fin 4])
      (.arr p [.fin 1, .fin 2, .fin 3, .fin 4]) = true := by
  refine ⟨?_, rfl, rfl, rfl, rfl, ?_, ?_, ?_⟩
  · cases w <;>
      simp [append, POIarrayInit, appendCoerce, hp, PObj.values, PObj.parameter,
        List.map_append, map_toF64_float, map_toF64_comp_float]
  · norm_num [append, POIarrayInit, hp, PObj.values, PObj.parameter, toF64]
  · norm_num [POIarrayInit, hp, toF64]
  · rw [pyEq_arr_arr]
    norm_num [f64Eq]

/-- C5, witness: the general part of the theorem applied to a one-element
array named `"a"` and the scalar `2`. -/
theorem c5_witness :
    append (.arr ⟨"a", true⟩ [.fin 9]) (.num (.int 2)) =
      .ok (.arr ⟨"a", true⟩ ([.fin 9] ++ appendCoerce (.num (.int 2)))) :=
  (c5_append_pure ⟨"a", true⟩ [.fin 9] (.num (.int 2)) (by decide)).1

/-! Claim C6. -/

/-- C6, counterexample: indexing the array `POIarray(p, [nan])` at `0`
returns the `POI` wrapping NaN, yet that `POI` does NOT equal
`POI(p, nan)` — `POI.__eq__` compares the scalars with `==`, which fails on
NaN — so the claim's in-range equality does not hold at NaN entries. -/
theorem c6_getitem_counterexample :
    getitem (.arr ⟨"p", true⟩ [.nan]) 0 = .ok (.poi ⟨"p", true⟩ (.float .nan)) ∧
    POIinit ⟨"p", true⟩ (.num (.float .nan)) = .ok (.poi ⟨"p", true⟩ (.float .nan)) ∧
    pyEq (.poi ⟨"p", true⟩ (.float .nan)) (.poi ⟨"p", true⟩ (.float .nan)) = false := by
  decide

/-- C6, amended: on an array built from a valid parameter `p` and values
`l`, indexed access at any in-range `i` returns a `POI` wrapping the same
parameter and the float64 coercion of `l[i]`, and that `POI` equals
`POI(p, l[i])` whenever the coerced entry is not a NaN; any index at or
beyond the length, or below the negative-index range, raises the standard
out-of-bounds error, propagated as-is. -/
theorem c6_getitem_spec (p : Param) (l : List PyNum) (i : ℕ)
    (hp : is_valid_parameter p = true) (hi : i < l.length) :
    POIarrayInit p (.list l) = .ok (.arr p (l.map toF64)) ∧
    getitem (.arr p (l.map toF64)) (i : ℤ) =
      .ok (.poi p (.float (toF64 (l.get ⟨i, hi⟩)))) ∧
    POIinit p (.num (l.get ⟨i, hi⟩)) = .ok (.poi p (l.get ⟨i, hi⟩)) ∧
    (notNaN (toF64 (l.get ⟨i, hi⟩)) = true →
      pyEq (.poi p (.float (toF64 (l.get ⟨i, hi⟩)))) (.poi p (l.get ⟨i, hi⟩)) = true) ∧
    (∀ j : ℤ, ((l.length : ℤ) ≤ j ∨ j < -(l.length : ℤ)) →
      getitem (.arr p (l.map toF64)) j = .error .indexError) := by
  refine ⟨?_, ?_, ?_, ?_, ?_⟩
  · simp [POIarrayInit, hp]
  · have hi' : i < (l.map toF64).length := by simpa using hi
    rw [getitem_nat p (l.map toF64) i hp hi']
    simp [List.get_eq_getElem, List.getElem_map]
  · simp [POIinit, POIarrayInit, hp]
  · intro hnan
    rw [List.get_eq_getElem] at hnan
    simp [pyEq, dunderEq, poiEqMeth, PObj.isPOI, pyNumEq, toF64_float, f64Eq_self,
      List.get_eq_getElem, hnan]
  · intro j hj
    exact getitem_oob (.arr p (l.map toF64)) j (by simpa [PObj.values] using hj)

/-- C6, witness: the amended theorem applied to the two-element array named
`"g"` at index `1`. -/
theorem c6_witness :
    getitem (.arr ⟨"g", true⟩ ([PyNum.int 7, PyNum.int 8].map toF64)) (1 : ℤ) =
      .ok (.poi ⟨"g", true⟩ (.float (toF64 (.int 8)))) :=
  (c6_getitem_spec ⟨"g", true⟩ [.int 7, .int 8] 1 (by decide) (by decide)).2.1

/-! Claim C7. -/

/-- C7: `asarray` is a pure conversion (the embedding is purely functional
and `asarray` only reads its argument): it returns a new `POIarray` sharing
the input's parameter whose value sequence is the input `POI`'s
single-element value array, the float64 coercion of `poi.value`; in
particular `asarray(POI(p, 7))` equals `POIarray(p, [7])`. -/
theorem c7_asarray_spec (p : Param) (v : PyNum) (hp : is_valid_parameter p = true) :
    asarray (.poi p v) = .ok (.arr p [toF64 v]) ∧
    (PObj.arr p [toF64 v]).parameter = (PObj.poi p v).parameter ∧
    (PObj.arr p [toF64 v]).values = (PObj.poi p v).values ∧
    (PObj.poi p v).value? = some v ∧
    POIinit p (.num (.int 7)) = .ok (.poi p (.int 7)) ∧
    asarray (.poi p (.int 7)) = .ok (.arr p [.fin 7]) ∧
    POIarrayInit p (.list [.int 7]) = .ok (.arr p [.fin 7]) ∧
    pyEq (.arr p [.fin 7]) (.arr p [.fin 7]) = true := by
  refine ⟨?_, rfl, rfl, rfl, ?_, ?_, ?_, ?_⟩
  · simp [asarray, POIarrayInit, hp, PObj.parameter, PObj.values, toF64]
  · simp [POIinit, POIarrayInit, hp]
  · norm_num [asarray, POIarrayInit, hp, PObj.parameter, PObj.values, toF64]
  · norm_num [POIarrayInit, hp, toF64]
  · rw [pyEq_arr_arr]
    norm_num [f64Eq]

/-- C7, witness: the theorem applied to parameter `"s"` and scalar `1`. -/
theorem c7_witness :
    asarray (.poi ⟨"s", true⟩ (.int 1)) = .ok (.arr ⟨"s", true⟩ [toF64 (.int 1)]) :=
  (c7_asarray_spec ⟨"s", true⟩ (.int 1) (by decide)).1

/-! Claim C8. -/

/-- C8: a `POIarray` built from a valid parameter and a non-empty list of
numbers has length equal to the input length, shape the one-element tuple
holding that length, `ndim` equal to 1, and its stored values are the
float64 coercions of the inputs regardless of their numeric type. -/
theorem c8_init_shape (p : Param) (l : List PyNum)
    (hp : is_valid_parameter p = true) (hne : l ≠ []) :
    POIarrayInit p (.list l) = .ok (.arr p (l.map toF64)) ∧
    (PObj.arr p (l.map toF64)).len = l.length ∧
    (PObj.arr p (l.map toF64)).shape = [l.length] ∧
    (PObj.arr p (l.map toF64)).ndim = 1 ∧
    (PObj.arr p (l.map toF64)).values = l.map toF64 := by
  refine ⟨?_, ?_, ?_, rfl, rfl⟩ <;>
    simp [POIarrayInit, hp, PObj.len, PObj.shape, PObj.values]

/-- C8, witness: the theorem applied to a two-element mixed int/float list
on the parameter `"n"`. -/
theorem c8_witness :
    (PObj.arr ⟨"n", true⟩ ([PyNum.int 1, PyNum.float F64.negZero].map toF64)).len = 2 :=
  (c8_init_shape ⟨"n", true⟩ [.int 1, .float .negZero] (by decide) (by decide)).2.1

/-! Claim C9. -/

/-- C9, counterexample: for `POI(p, nan)` the accessor returns the original
NaN scalar and `values[0]` is the NaN float64, but the two do NOT compare
numerically equal — `nan == nan` is false — so the claim's final clause
fails at NaN input. -/
theorem c9_value_counterexample :
    POIinit ⟨"p", true⟩ (.num (.float .nan)) = .ok (.poi ⟨"p", true⟩ (.float .nan)) ∧
    (PObj.poi ⟨"p", true⟩ (.float .nan)).value? = some (.float .nan) ∧
    (PObj.poi ⟨"p", true⟩ (.float .nan)).values = [.nan] ∧
    pyNumEq (.float .nan) (.float (toF64 (.float .nan))) = false := by
  decide

/-- C9, amended: for every `POI(p, v)` the `value` accessor returns the
original constructor argument `v` itself with its Python type tag intact
(an int input stays an int), while `values[0]` is the float64 coercion of
`v`; the two compare numerically equal whenever the coercion of `v` is not
a NaN. -/
theorem c9_value_type_preserved (p : Param) (v : PyNum)
    (hp : is_valid_parameter p = true) (hv : notNaN (toF64 v) = true) :
    POIinit p (.num v) = .ok (.poi p v) ∧
    (PObj.poi p v).value? = some v ∧
    (PObj.poi p v).values = [toF64 v] ∧
    pyNumEq v (.float (toF64 v)) = true := by
  refine ⟨?_, rfl, rfl, ?_⟩
  · simp [POIinit, POIarrayInit, hp]
  · simp [pyNumEq, toF64_float, f64Eq_self, hv]

/-- C9, witness: the amended theorem applied to parameter `"v"` and the
integer scalar `6`. -/
theorem c9_witness :
    pyNumEq (.int 6) (.float (toF64 (.int 6))) = true :=
  (c9_value_type_preserved ⟨"v", true⟩ (.int 6) (by decide) (by decide)).2.2.2

/-! Claim C10. -/

/-- C10: `POI` inherits `append` from `POIarray`; appending a scalar `w` to
`POI(p, v)` produces a plain `POIarray` (its `isinstance(_, POI)` test is
false) of length 2 holding the coercions of `v` and `w` in order, while the
`POI` itself still has length 1 (the embedding is purely functional, so the
receiver cannot change), preserving the single-value invariant. -/
theorem c10_poi_append (p : Param) (v w : PyNum) (hp : is_valid_parameter p = true) :
    POIinit p (.num v) = .ok (.poi p v) ∧
    append (.poi p v) (.num w) = .ok (.arr p [toF64 v, toF64 w]) ∧
    (PObj.arr p [toF64 v, toF64 w]).isPOI = false ∧
    (PObj.arr p [toF64 v, toF64 w]).len = 2 ∧
    (PObj.poi p v).len = 1 := by
  refine ⟨?_, ?_, rfl, rfl, rfl⟩ <;>
    simp [POIinit, POIarrayInit, append, hp, PObj.values, PObj.parameter, toF64]

/-- C10, witness: the theorem applied to parameter `"t"` and scalars `1`
and `2`. -/
theorem c10_witness :
    append (.poi ⟨"t", true⟩ (.int 1)) (.num (.int 2)) =
      .ok (.arr ⟨"t", true⟩ [toF64 (.int 1), toF64 (.int 2)]) :=
  (c10_poi_append ⟨"t", true⟩ (.int 1) (.int 2) (by decide)).2.1
